import Mathlib

/-!
Verification of the HexBright FLEX firmware variants (hexbright_jrt.ino and
the two related revisions) against their natural-language specification.

The embedding below is a shallow model of the firmware's global state and of
the functions `setup`, `loop` (split into its phases), `oneSecondLoop`,
`checkChargeState`, `checkTemperature`, `checkAccel`, `powerOff`,
`setLight`/`setLight*`, `resetAccelTimeout` and `readAccel`, translated
directly from the C++ source.

Modelling conventions:
* `unsigned long` (the `millis()` clock and every timestamp) is a `Nat`.
  The firmware's `a - b` on `unsigned long` is modelled by `usub`, which has
  the exact 32-bit wrap-around semantics for operands below `2 ^ 32`; the
  49.7-day clock rollover is outside every property considered here, so
  additions are left unwrapped.
* `const int` constants live on an 8-bit AVR target where `int` is 16 bits,
  so an initializer is reduced modulo `2 ^ 16` (this matters for
  `noAccelShutoffMilliseconds`, whose initializer overflows).
* The blocking `delay(n)` advances the clock by `n`.
* `setLight` is recursive in the C source (the blinking case re-enters it
  with `lastOnMode`); when `lastOnMode` is itself a blinking value the C
  recursion never terminates, which the model renders as `none` via a fuel
  argument (2 levels suffice for every terminating execution).
* Hardware writes that the spec talks about are mirrored in state fields
  (`drvMode`, `drvEn`, `pwrOn`, `gled`) and, for the LED driver, also logged
  in `lightTrace` as `(millis, brightness mode)` pairs so that the shape of
  the thermal-protection sequence can be stated.
* The single EEPROM cell `EEPROM_LAST_ON_MODE` is the `eeprom` field;
  `eepromWrites` counts `EEPROM.write` calls so that "written only when
  changed" is expressible.
-/

namespace Hexbright

/-- Wrap modulus of the 32-bit `unsigned long` type. -/
def UL : Nat := 2 ^ 32

/-- Unsigned 32-bit subtraction as the AVR evaluates `a - b` on
`unsigned long` values below `2 ^ 32`. -/
def usub (a b : Nat) : Nat :=
  if b ≤ a then a - b else a + UL - b

-- Mode constants (the `#define MODE_*` values).
def MODE_OFF : Nat := 0
def MODE_LOW : Nat := 1
def MODE_MED : Nat := 2
def MODE_HIGH : Nat := 3
def MODE_BLINKING : Nat := 4
def MODE_BLINKING_PREVIEW : Nat := 5

/-- Overtemperature threshold (`#define OVERTEMP 340`). -/
def OVERTEMP : Nat := 340

/-- Source: `const int buttonTimeoutToOffMilliseconds = 2000;` (fits in a
16-bit `int`). -/
def buttonTimeoutToOffMilliseconds : Nat := 2000

/-- Source: `const int noAccelShutoffMilliseconds = 30 * 60 * 1000;`.
On the AVR target `int` is 16 bits signed, so the initializer 1800000 wraps
modulo `2 ^ 16` to 30528 (which is below `2 ^ 15`, hence positive). -/
def noAccelShutoffMilliseconds : Nat := (30 * 60 * 1000) % 2 ^ 16

/-- Source: `const int defaultMode = MODE_HIGH;` (declared in the firmware
but never read by it). -/
def defaultMode : Nat := MODE_HIGH

/-- The firmware's global state, plus the mirrored hardware/EEPROM
observations described in the file header. -/
structure Machine where
  mode : Nat
  lastOnMode : Nat
  btnTime : Nat
  btnDown : Bool
  lastModeTime : Nat
  oneSecondLoopTime : Nat
  lastAccelTime : Nat
  noAccelShutoffTime : Nat
  poweringOffTime : Nat
  clock : Nat
  drvMode : Bool
  drvEn : Nat
  pwrOn : Bool
  gled : Nat
  eeprom : Nat
  eepromWrites : Nat
  lightTrace : List (Nat × Nat)
  deriving Repr, DecidableEq

/-- Blocking `delay(n)`: the clock advances by `n` milliseconds. -/
def delay (n : Nat) (st : Machine) : Machine :=
  { st with clock := st.clock + n }

/-- Source `resetAccelTimeout()`: records `millis()` as the last-motion time
and pushes the auto-shutoff deadline out by `noAccelShutoffMilliseconds`. -/
def resetAccelTimeout (st : Machine) : Machine :=
  { st with lastAccelTime := st.clock,
            noAccelShutoffTime := st.clock + noAccelShutoffMilliseconds }

/-- Source `setLight(byte lightMode)` with an explicit recursion fuel: the
`MODE_BLINKING`/`MODE_BLINKING_PREVIEW` case re-enters `setLight` with
`lastOnMode`, which in C diverges when `lastOnMode` is itself a blinking
value; exhausted fuel models that divergence as `none`. Each branch mirrors
the corresponding `case` of the C `switch`, the trailing statements model
`mode = lightMode`, the preview collapse, and `resetAccelTimeout()`. -/
def setLightF : Nat → Nat → Machine → Option Machine
  | 0, _, _ => none
  | fuel + 1, lightMode, st =>
    let afterSwitch : Option Machine :=
      if lightMode = MODE_OFF then
        some { st with drvMode := false, drvEn := 0,
                       poweringOffTime :=
                         st.clock + buttonTimeoutToOffMilliseconds * 3,
                       lightTrace := st.lightTrace ++ [(st.clock, MODE_OFF)] }
      else if lightMode = MODE_LOW then
        some { st with pwrOn := true, drvMode := false, drvEn := 64,
                       lastOnMode := MODE_LOW, poweringOffTime := 0,
                       lightTrace := st.lightTrace ++ [(st.clock, MODE_LOW)] }
      else if lightMode = MODE_MED then
        some { st with pwrOn := true, drvMode := false, drvEn := 255,
                       lastOnMode := MODE_MED, poweringOffTime := 0,
                       lightTrace := st.lightTrace ++ [(st.clock, MODE_MED)] }
      else if lightMode = MODE_HIGH then
        some { st with pwrOn := true, drvMode := true, drvEn := 255,
                       lastOnMode := MODE_HIGH, poweringOffTime := 0,
                       lightTrace := st.lightTrace ++ [(st.clock, MODE_HIGH)] }
      else if lightMode = MODE_BLINKING ∨ lightMode = MODE_BLINKING_PREVIEW then
        (setLightF fuel st.lastOnMode st).map
          (fun s => { s with poweringOffTime := 0 })
      else
        some st
    afterSwitch.map (fun s =>
      let s := { s with mode := lightMode }
      let s := if s.mode = MODE_BLINKING_PREVIEW
               then { s with mode := MODE_BLINKING } else s
      resetAccelTimeout s)

/-- Source `setLight` entry point (fuel 2 covers every terminating call). -/
def setLight (lightMode : Nat) (st : Machine) : Option Machine :=
  setLightF 2 lightMode st

def setLightOff (st : Machine) : Option Machine := setLight MODE_OFF st
def setLightLow (st : Machine) : Option Machine := setLight MODE_LOW st
def setLightMed (st : Machine) : Option Machine := setLight MODE_MED st
def setLightHigh (st : Machine) : Option Machine := setLight MODE_HIGH st
def setLightBlinking (st : Machine) : Option Machine :=
  setLight MODE_BLINKING st

/-- Source `powerOff()`: cuts the power latch and LED driver lines, then
writes `lastOnMode` to the EEPROM cell only if the stored byte differs. -/
def powerOff (st : Machine) : Machine :=
  { st with pwrOn := false, drvMode := false, drvEn := 0,
            eeprom := if st.eeprom ≠ st.lastOnMode then st.lastOnMode
                      else st.eeprom,
            eepromWrites := if st.eeprom ≠ st.lastOnMode
                            then st.eepromWrites + 1 else st.eepromWrites }

/-- Source `setup()` of hexbright_jrt.ino, restricted to the state the model
tracks: every global is zeroed, `lastOnMode` is loaded from the EEPROM byte
and clamped to `MODE_MED` when outside `MODE_LOW..MODE_HIGH`, and
`resetAccelTimeout()` runs at the boot clock. -/
def setup (eepromByte : Nat) (bootClock : Nat) : Machine :=
  let lom := if eepromByte < MODE_LOW ∨ eepromByte > MODE_HIGH
             then MODE_MED else eepromByte
  resetAccelTimeout
    { mode := MODE_OFF, lastOnMode := lom, btnTime := 0, btnDown := false,
      lastModeTime := 0, oneSecondLoopTime := 0, lastAccelTime := 0,
      noAccelShutoffTime := 0, poweringOffTime := 0, clock := bootClock,
      drvMode := false, drvEn := 0, pwrOn := false, gled := 0,
      eeprom := eepromByte, eepromWrites := 0, lightTrace := [] }

/-- Source `checkChargeState()`: maps the analog charge reading to the green
status LED (charging blink from bit 8 of the clock / charged solid / off). -/
def checkChargeState (chargeReading : Nat) (st : Machine) : Machine :=
  if chargeReading < 128 then
    { st with gled := if st.clock &&& 0x0100 ≠ 0 then 0 else 1 }
  else if chargeReading > 768 then
    { st with gled := 1 }
  else
    { st with gled := 0 }

/-- The six-iteration `for` loop of `checkTemperature`: each pass sets the
light low, waits 100ms, sets it high, and waits 100ms again. -/
def otLoop : Nat → Machine → Option Machine
  | 0, st => some st
  | n + 1, st =>
    (setLightLow st).bind fun s1 =>
      (setLightHigh (delay 100 s1)).bind fun s2 =>
        otLoop n (delay 100 s2)

/-- Source `checkTemperature()`: on a sample above `OVERTEMP` while the mode
is not `MODE_OFF`, runs the blocking six-cycle low/high blink and then
forces the light low. -/
def checkTemperature (temperature : Nat) (st : Machine) : Option Machine :=
  if temperature > OVERTEMP ∧ st.mode ≠ MODE_OFF then
    (otLoop 6 st).bind setLightLow
  else
    some st

/-- Source `checkAccel()`: when the accelerometer interrupt line is asserted
(low), reads the tilt byte; bit 5 classifies a tap and bit 7 a shake, and
each classification records the motion time and resets the shutoff
deadline. -/
def checkAccel (intAsserted : Bool) (tilt : Nat) (st : Machine) : Machine :=
  if intAsserted then
    let tapped := tilt &&& 0x20 ≠ 0
    let shaked := tilt &&& 0x80 ≠ 0
    let st := if tapped then resetAccelTimeout st else st
    let st := if shaked then resetAccelTimeout st else st
    st
  else
    st

/-- The body of `oneSecondLoop()` after its rate gate: stamp the gate time,
run `checkTemperature`, then `checkAccel` (the button-pin float guard has no
modelled state). -/
def oneSecondBody (temperature : Nat) (intAsserted : Bool) (tilt : Nat)
    (st : Machine) : Option Machine :=
  (checkTemperature temperature
      { st with oneSecondLoopTime := st.clock }).map
    (checkAccel intAsserted tilt)

/-- Source `oneSecondLoop()`: rate-gated to once per second; after the
sensor passes, forces the light off when the entry time has passed the
motion deadline while the mode is not `MODE_OFF`. -/
def oneSecondLoop (temperature : Nat) (intAsserted : Bool) (tilt : Nat)
    (st : Machine) : Option Machine :=
  let time := st.clock
  if usub time st.oneSecondLoopTime < 1000 then
    some st
  else
    (oneSecondBody temperature intAsserted tilt st).bind fun s2 =>
      if time > s2.noAccelShutoffTime ∧ s2.mode ≠ MODE_OFF then
        setLightOff s2
      else
        some s2

/-- The `switch (mode)` of `loop()` that computes `newMode` from the
debounced button edge and the dwell/hold durations; the `MODE_OFF` release
branch also stamps `lastModeTime` directly (source line 169), which the
returned machine reflects. `time` is the value of the `time` local captured
at the top of `loop()`. -/
def modeSwitch (time : Nat) (newBtnDown : Bool) (st : Machine) :
    Nat × Machine :=
  if st.mode = MODE_OFF then
    if st.btnDown ∧ ¬newBtnDown ∧ usub time st.btnTime > 20 then
      if st.lastModeTime = 0 ∨ usub time st.lastModeTime > 1000 then
        (st.lastOnMode, { st with lastModeTime := time })
      else
        (MODE_LOW, st)
    else if st.btnDown ∧ newBtnDown ∧ usub time st.btnTime > 500 then
      (MODE_BLINKING_PREVIEW, st)
    else
      (st.mode, st)
  else if st.mode = MODE_LOW then
    if st.btnDown ∧ ¬newBtnDown ∧ usub time st.btnTime > 50 then
      if usub time st.lastModeTime > buttonTimeoutToOffMilliseconds then
        (MODE_OFF, st)
      else
        (MODE_MED, st)
    else
      (st.mode, st)
  else if st.mode = MODE_MED then
    if st.btnDown ∧ ¬newBtnDown ∧ usub time st.btnTime > 50 then
      if usub time st.lastModeTime > buttonTimeoutToOffMilliseconds then
        (MODE_OFF, st)
      else
        (MODE_HIGH, st)
    else
      (st.mode, st)
  else if st.mode = MODE_HIGH then
    if st.btnDown ∧ ¬newBtnDown ∧ usub time st.btnTime > 50 then
      (MODE_OFF, st)
    else
      (st.mode, st)
  else if st.mode = MODE_BLINKING_PREVIEW then
    if st.btnDown ∧ ¬newBtnDown then
      (MODE_BLINKING, st)
    else
      (st.mode, st)
  else if st.mode = MODE_BLINKING then
    if st.btnDown ∧ ¬newBtnDown ∧ usub time st.btnTime > 50 then
      if usub time st.lastModeTime > 2000 then
        (MODE_OFF, st)
      else
        (st.mode, st)
    else
      (st.mode, st)
  else
    (st.mode, st)

/-- The `if (newMode != mode)` transition block of `loop()`: stamps
`lastModeTime` and dispatches to the `setLight*` helper for the new mode
(both blinking values call `setLightBlinking()`, i.e. `setLight(4)`). -/
def applyTransition (time : Nat) (newMode : Nat) (st : Machine) :
    Option Machine :=
  if newMode ≠ st.mode then
    let st := { st with lastModeTime := time }
    if newMode = MODE_OFF then setLightOff st
    else if newMode = MODE_LOW then setLightLow st
    else if newMode = MODE_MED then setLightMed st
    else if newMode = MODE_HIGH then setLightHigh st
    else if newMode = MODE_BLINKING ∨ newMode = MODE_BLINKING_PREVIEW then
      setLightBlinking st
    else some st
  else
    some st

/-- Lines 155-262 of `loop()`: evaluate the mode switch on the freshly read
button level, apply the transition, and record a debounced button edge
(followed by the blocking 50ms settle delay). -/
def buttonStep (time : Nat) (newBtnDown : Bool) (st : Machine) :
    Option Machine :=
  let ms := modeSwitch time newBtnDown st
  (applyTransition time ms.1 ms.2).map fun st2 =>
    if newBtnDown ≠ st2.btnDown then
      delay 50 { st2 with btnTime := time, btnDown := newBtnDown }
    else
      st2

/-- One full `loop()` tick of hexbright_jrt.ino: the scheduled hard
power-off check, the charge indicator, the once-per-second pass, the blink
duty-cycle write, and the button-driven transition step. -/
def loopStep (chargeReading temperature : Nat) (intAsserted : Bool)
    (tilt : Nat) (newBtnDown : Bool) (st : Machine) : Option Machine :=
  let time := st.clock
  if st.poweringOffTime > 0 ∧ time > st.poweringOffTime then
    some (powerOff st)
  else
    let st := checkChargeState chargeReading st
    (oneSecondLoop temperature intAsserted tilt st).bind fun st =>
      let st := if st.mode = MODE_BLINKING ∨ st.mode = MODE_BLINKING_PREVIEW
                then { st with drvEn := if time % 600 < 450 then 1 else 0 }
                else st
      buttonStep time newBtnDown st

/-- One `acc[i]` slot of `readAccel`'s `for` body (from the unnamed
revisions): skip the slot when no byte is available, otherwise store the raw
byte; a byte with bit 6 set triggers `continue` (which, targeting the `for`
loop, merely skips the sign-extension line), and a byte with bit 5 set and
bit 6 clear is sign-extended with `|= 0xC0`. Returns the stored value and
the remaining receive buffer. -/
def readAccelSlot (garbage : Nat) (rx : List Nat) : Nat × List Nat :=
  match rx with
  | [] => (garbage, [])
  | b :: rest =>
    if b &&& 0x40 ≠ 0 then (b, rest)
    else if b &&& 0x20 ≠ 0 then (b ||| 0xC0, rest)
    else (b, rest)

/-- Source `readAccel(char *acc)`: the `while (1)` body ends in an
unconditional `break`, so exactly one 3-byte bus transaction is processed;
`rx` is that transaction's receive buffer and `g0 g1 g2` are the caller's
uninitialized `acc` contents. -/
def readAccel (rx : List Nat) (g0 g1 g2 : Nat) : Nat × Nat × Nat :=
  let (a0, r0) := readAccelSlot g0 rx
  let (a1, r1) := readAccelSlot g1 r0
  let (a2, _) := readAccelSlot g2 r1
  (a0, a1, a2)

/-! ### Concrete machine states used by witnesses and counterexamples -/

/-- A concrete state: light off, button held since `btnTime = 0`, last-on
brightness `MODE_MED`, clock at 600ms. -/
def stW : Machine :=
  { mode := MODE_OFF, lastOnMode := MODE_MED, btnTime := 0, btnDown := true,
    lastModeTime := 0, oneSecondLoopTime := 0, lastAccelTime := 0,
    noAccelShutoffTime := 0, poweringOffTime := 0, clock := 600,
    drvMode := false, drvEn := 0, pwrOn := false, gled := 0,
    eeprom := 2, eepromWrites := 0, lightTrace := [] }

/-- A concrete state for the motion-shutoff scenarios: light on `High`,
button up, clock at 40000ms, shutoff deadline long expired. -/
def stA : Machine :=
  { stW with mode := MODE_HIGH, btnDown := false, clock := 40000,
             noAccelShutoffTime := 30528 }

/-! ### Helper lemmas about `setLight` -/

/-- The invariant the spec states for `lastOnMode`. -/
abbrev LastOnInv (st : Machine) : Prop :=
  st.lastOnMode = MODE_LOW ∨ st.lastOnMode = MODE_MED ∨
    st.lastOnMode = MODE_HIGH

lemma setLightF_one_spec (m : Nat) (st st' : Machine)
    (h : setLightF 1 m st = some st') :
    st'.clock = st.clock ∧ st'.eeprom = st.eeprom ∧
    st'.eepromWrites = st.eepromWrites ∧ st'.btnDown = st.btnDown ∧
    st'.btnTime = st.btnTime ∧
    st'.noAccelShutoffTime = st.clock + noAccelShutoffMilliseconds ∧
    st'.lastAccelTime = st.clock ∧
    st'.lastOnMode = (if m = MODE_LOW ∨ m = MODE_MED ∨ m = MODE_HIGH
                      then m else st.lastOnMode) ∧
    st'.mode = (if m = MODE_BLINKING_PREVIEW then MODE_BLINKING else m) ∧
    st'.oneSecondLoopTime = st.oneSecondLoopTime ∧
    st'.lastModeTime = st.lastModeTime := by
  unfold setLightF at h
  split_ifs at h <;>
    simp_all [setLightF, resetAccelTimeout, MODE_OFF, MODE_LOW, MODE_MED,
      MODE_HIGH, MODE_BLINKING, MODE_BLINKING_PREVIEW] <;>
    (subst h; simp)

lemma setLight_spec (m : Nat) (st st' : Machine)
    (h : setLight m st = some st') :
    st'.clock = st.clock ∧ st'.eeprom = st.eeprom ∧
    st'.eepromWrites = st.eepromWrites ∧ st'.btnDown = st.btnDown ∧
    st'.btnTime = st.btnTime ∧
    st'.noAccelShutoffTime = st.clock + noAccelShutoffMilliseconds ∧
    st'.lastAccelTime = st.clock ∧
    st'.lastOnMode = (if m = MODE_LOW ∨ m = MODE_MED ∨ m = MODE_HIGH
                      then m else st.lastOnMode) ∧
    st'.mode = (if m = MODE_BLINKING_PREVIEW then MODE_BLINKING else m) ∧
    st'.oneSecondLoopTime = st.oneSecondLoopTime := by
  unfold setLight setLightF at h
  split_ifs at h with c0 c1 c2 c3 c4
  · simp_all [resetAccelTimeout, MODE_OFF, MODE_LOW, MODE_MED, MODE_HIGH,
      MODE_BLINKING, MODE_BLINKING_PREVIEW] <;> (subst h; simp)
  · simp_all [resetAccelTimeout, MODE_OFF, MODE_LOW, MODE_MED, MODE_HIGH,
      MODE_BLINKING, MODE_BLINKING_PREVIEW] <;> (subst h; simp)
  · simp_all [resetAccelTimeout, MODE_OFF, MODE_LOW, MODE_MED, MODE_HIGH,
      MODE_BLINKING, MODE_BLINKING_PREVIEW] <;> (subst h; simp)
  · simp_all [resetAccelTimeout, MODE_OFF, MODE_LOW, MODE_MED, MODE_HIGH,
      MODE_BLINKING, MODE_BLINKING_PREVIEW] <;> (subst h; simp)
  · -- blinking cases: decompose the two maps around the inner call
    rw [Option.map_eq_some'] at h
    obtain ⟨sa, ha, hst⟩ := h
    rw [Option.map_eq_some'] at ha
    obtain ⟨s0, hs0, hsa⟩ := ha
    have hspec := setLightF_one_spec _ _ _ hs0
    subst hsa hst
    rcases c4 with hc | hc <;>
      simp_all [resetAccelTimeout, MODE_OFF, MODE_LOW, MODE_MED, MODE_HIGH,
        MODE_BLINKING, MODE_BLINKING_PREVIEW] <;>
      split_ifs at hspec <;> simp_all
  · simp_all [resetAccelTimeout, MODE_OFF, MODE_LOW, MODE_MED, MODE_HIGH,
      MODE_BLINKING, MODE_BLINKING_PREVIEW] <;> (subst h; simp)

lemma setLight_inv (m : Nat) (st st' : Machine) (hinv : LastOnInv st)
    (h : setLight m st = some st') : LastOnInv st' := by
  have hspec := (setLight_spec m st st' h).2.2.2.2.2.2.2.1
  unfold LastOnInv at hinv ⊢
  rw [hspec]
  split_ifs with hc
  · rcases hc with hc | hc | hc <;> simp [hc, LastOnInv, MODE_LOW, MODE_MED,
      MODE_HIGH]
  · exact hinv

/-! ### Helper lemmas about the loop phases -/

lemma modeSwitch_snd (time : Nat) (b : Bool) (st : Machine) :
    ∃ lm, (modeSwitch time b st).2 = { st with lastModeTime := lm } := by
  unfold modeSwitch
  split_ifs <;> exact ⟨_, rfl⟩

lemma applyTransition_inv (time nm : Nat) (st st' : Machine)
    (hinv : LastOnInv st) (h : applyTransition time nm st = some st') :
    LastOnInv st' := by
  unfold applyTransition setLightOff setLightLow setLightMed setLightHigh
    setLightBlinking at h
  split_ifs at h <;>
    first
      | (refine setLight_inv _ _ _ ?_ h; exact hinv)
      | (simp only [Option.some.injEq] at h; subst h; exact hinv)

lemma applyTransition_frame (time nm : Nat) (st st' : Machine)
    (h : applyTransition time nm st = some st') :
    st'.eeprom = st.eeprom ∧ st'.eepromWrites = st.eepromWrites ∧
    st'.btnDown = st.btnDown ∧ st'.btnTime = st.btnTime ∧
    st'.clock = st.clock := by
  unfold applyTransition setLightOff setLightLow setLightMed setLightHigh
    setLightBlinking at h
  split_ifs at h <;>
    first
      | (have hs := setLight_spec _ _ _ h
         exact ⟨hs.2.1, hs.2.2.1, hs.2.2.2.1, hs.2.2.2.2.1, hs.1⟩)
      | (simp only [Option.some.injEq] at h; subst h; simp)

lemma buttonStep_inv (time : Nat) (b : Bool) (st st' : Machine)
    (hinv : LastOnInv st) (h : buttonStep time b st = some st') :
    LastOnInv st' := by
  unfold buttonStep at h
  obtain ⟨s2, h2, hk⟩ := Option.map_eq_some'.mp h
  obtain ⟨lm, hms⟩ := modeSwitch_snd time b st
  rw [hms] at h2
  have hinv2 : LastOnInv s2 := by
    refine applyTransition_inv _ _ _ _ ?_ h2
    exact hinv
  subst hk
  split_ifs <;> simpa [delay] using hinv2

lemma buttonStep_frame (time : Nat) (b : Bool) (st st' : Machine)
    (h : buttonStep time b st = some st') :
    st'.eeprom = st.eeprom ∧ st'.eepromWrites = st.eepromWrites := by
  unfold buttonStep at h
  obtain ⟨s2, h2, hk⟩ := Option.map_eq_some'.mp h
  obtain ⟨lm, hms⟩ := modeSwitch_snd time b st
  rw [hms] at h2
  have hf := applyTransition_frame _ _ _ _ h2
  subst hk
  split_ifs <;> simp [delay, hf.1, hf.2.1]

lemma otLoop_spec (n : Nat) (st st' : Machine) (h : otLoop n st = some st') :
    st'.eeprom = st.eeprom ∧ st'.eepromWrites = st.eepromWrites ∧
    (LastOnInv st → LastOnInv st') := by
  induction n generalizing st with
  | zero =>
    simp only [otLoop, Option.some.injEq] at h
    subst h
    exact ⟨rfl, rfl, id⟩
  | succ n ih =>
    simp only [otLoop] at h
    obtain ⟨s1, h1, hrest⟩ := Option.bind_eq_some.mp h
    obtain ⟨s2, h2, h3⟩ := Option.bind_eq_some.mp hrest
    have hs1 := setLight_spec _ _ _ h1
    have hs2 := setLight_spec _ _ _ h2
    have hih := ih _ h3
    exact ⟨by simp [hih.1, delay, hs2.2.1, hs1.2.1],
           by simp [hih.2.1, delay, hs2.2.2.1, hs1.2.2.1],
           fun hx => hih.2.2 (by
             have hl2 := hs2.2.2.2.2.2.2.2.1
             simp_all [LastOnInv, delay, MODE_LOW, MODE_MED, MODE_HIGH,
               MODE_BLINKING_PREVIEW])⟩

lemma checkTemperature_inv (temp : Nat) (st st' : Machine)
    (hinv : LastOnInv st) (h : checkTemperature temp st = some st') :
    LastOnInv st' := by
  unfold checkTemperature setLightLow at h
  split_ifs at h
  · obtain ⟨s6, h6, hl⟩ := Option.bind_eq_some.mp h
    exact setLight_inv _ _ _ ((otLoop_spec _ _ _ h6).2.2 hinv) hl
  · simp only [Option.some.injEq] at h; subst h; exact hinv

lemma checkTemperature_frame (temp : Nat) (st st' : Machine)
    (h : checkTemperature temp st = some st') :
    st'.eeprom = st.eeprom ∧ st'.eepromWrites = st.eepromWrites := by
  unfold checkTemperature setLightLow at h
  split_ifs at h
  · obtain ⟨s6, h6, hl⟩ := Option.bind_eq_some.mp h
    have h6s := otLoop_spec _ _ _ h6
    have hls := setLight_spec _ _ _ hl
    exact ⟨by rw [hls.2.1, h6s.1], by rw [hls.2.2.1, h6s.2.1]⟩
  · simp only [Option.some.injEq] at h; subst h; exact ⟨rfl, rfl⟩

lemma checkAccel_state (ia : Bool) (tilt : Nat) (st : Machine) :
    ∃ d l, checkAccel ia tilt st =
      { st with noAccelShutoffTime := d, lastAccelTime := l } := by
  unfold checkAccel resetAccelTimeout
  dsimp only
  split_ifs <;> exact ⟨_, _, rfl⟩

lemma oneSecondLoop_inv (temp : Nat) (ia : Bool) (tilt : Nat)
    (st st' : Machine) (hinv : LastOnInv st)
    (h : oneSecondLoop temp ia tilt st = some st') : LastOnInv st' := by
  unfold oneSecondLoop oneSecondBody at h
  dsimp only at h
  split_ifs at h
  · simp only [Option.some.injEq] at h; subst h; exact hinv
  · obtain ⟨s2, h2, hrest⟩ := Option.bind_eq_some.mp h
    obtain ⟨s1, h1, hca⟩ := Option.map_eq_some'.mp h2
    have hinv1 : LastOnInv s1 := by
      refine checkTemperature_inv _ _ _ ?_ h1
      exact hinv
    obtain ⟨d, l, hcs⟩ := checkAccel_state ia tilt s1
    have hinv2 : LastOnInv s2 := by subst hca; rw [hcs]; exact hinv1
    split_ifs at hrest
    · exact setLight_inv _ _ _ hinv2 hrest
    · simp only [Option.some.injEq] at hrest; subst hrest; exact hinv2

lemma oneSecondLoop_frame (temp : Nat) (ia : Bool) (tilt : Nat)
    (st st' : Machine) (h : oneSecondLoop temp ia tilt st = some st') :
    st'.eeprom = st.eeprom ∧ st'.eepromWrites = st.eepromWrites := by
  unfold oneSecondLoop oneSecondBody at h
  dsimp only at h
  split_ifs at h
  · simp only [Option.some.injEq] at h; subst h; exact ⟨rfl, rfl⟩
  · obtain ⟨s2, h2, hrest⟩ := Option.bind_eq_some.mp h
    obtain ⟨s1, h1, hca⟩ := Option.map_eq_some'.mp h2
    have hf1 := checkTemperature_frame _ _ _ h1
    obtain ⟨d, l, hcs⟩ := checkAccel_state ia tilt s1
    have hf2 : s2.eeprom = s1.eeprom ∧ s2.eepromWrites = s1.eepromWrites := by
      subst hca; rw [hcs]; exact ⟨rfl, rfl⟩
    split_ifs at hrest
    · have hls := setLight_spec _ _ _ hrest
      constructor
      · rw [hls.2.1, hf2.1, hf1.1]
      · rw [hls.2.2.1, hf2.2, hf1.2]
    · simp only [Option.some.injEq] at hrest
      subst hrest
      exact ⟨by rw [hf2.1, hf1.1], by rw [hf2.2, hf1.2]⟩

lemma loopStep_inv (cr temp : Nat) (ia : Bool) (tilt : Nat) (b : Bool)
    (st st' : Machine) (hinv : LastOnInv st)
    (h : loopStep cr temp ia tilt b st = some st') : LastOnInv st' := by
  unfold loopStep at h
  dsimp only at h
  split_ifs at h
  · simp only [Option.some.injEq] at h
    subst h
    simpa [powerOff, LastOnInv] using hinv
  all_goals
    obtain ⟨s1, h1, h2⟩ := Option.bind_eq_some.mp h
    have hinv1 : LastOnInv s1 := by
      refine oneSecondLoop_inv _ _ _ _ _ ?_ h1
      unfold checkChargeState
      split_ifs <;> exact hinv
    split_ifs at h2 <;> (refine buttonStep_inv _ _ _ _ ?_ h2; exact hinv1)

lemma checkTemperature_run (temp : Nat) (st : Machine)
    (ht : OVERTEMP < temp) (hm : st.mode ≠ MODE_OFF) :
    checkTemperature temp st = some
      { st with mode := MODE_LOW, lastOnMode := MODE_LOW, drvMode := false,
                drvEn := 64, pwrOn := true, poweringOffTime := 0,
                clock := st.clock + 1200, lastAccelTime := st.clock + 1200,
                noAccelShutoffTime :=
                  st.clock + 1200 + noAccelShutoffMilliseconds,
                lightTrace := st.lightTrace ++
                  [(st.clock, MODE_LOW), (st.clock + 100, MODE_HIGH),
                   (st.clock + 200, MODE_LOW), (st.clock + 300, MODE_HIGH),
                   (st.clock + 400, MODE_LOW), (st.clock + 500, MODE_HIGH),
                   (st.clock + 600, MODE_LOW), (st.clock + 700, MODE_HIGH),
                   (st.clock + 800, MODE_LOW), (st.clock + 900, MODE_HIGH),
                   (st.clock + 1000, MODE_LOW), (st.clock + 1100, MODE_HIGH),
                   (st.clock + 1200, MODE_LOW)] } := by
  unfold checkTemperature
  rw [if_pos ⟨ht, hm⟩]
  simp [otLoop, setLightLow, setLightHigh, setLight, setLightF, delay,
    resetAccelTimeout, MODE_OFF, MODE_LOW, MODE_MED, MODE_HIGH,
    MODE_BLINKING, MODE_BLINKING_PREVIEW]

/-! ### Claims -/

/-- C1: brightness cycle. From `Off`, a qualifying release (held > the 20ms
debounce floor, more than the 1000ms double-tap window since the last mode
transition) moves to `LastOnMode`; from `Low` (resp. `Medium`) a qualifying
release (held > 50ms) with dwell at most the 2000ms off-timeout moves to
`Medium` (resp. `High`); from `High` any qualifying release moves to `Off`;
and from `Low` or `Medium` a qualifying release with dwell beyond the
off-timeout moves to `Off`. -/
theorem claim1_brightness_cycle (st : Machine) (time : Nat)
    (hlom : st.lastOnMode = MODE_LOW ∨ st.lastOnMode = MODE_MED ∨
      st.lastOnMode = MODE_HIGH)
    (hbd : st.btnDown = true) :
    (st.mode = MODE_OFF → 20 < usub time st.btnTime →
      1000 < usub time st.lastModeTime →
      (buttonStep time false st).map Machine.mode = some st.lastOnMode)
    ∧ (st.mode = MODE_LOW → 50 < usub time st.btnTime →
      usub time st.lastModeTime ≤ buttonTimeoutToOffMilliseconds →
      (buttonStep time false st).map Machine.mode = some MODE_MED)
    ∧ (st.mode = MODE_MED → 50 < usub time st.btnTime →
      usub time st.lastModeTime ≤ buttonTimeoutToOffMilliseconds →
      (buttonStep time false st).map Machine.mode = some MODE_HIGH)
    ∧ (st.mode = MODE_HIGH → 50 < usub time st.btnTime →
      (buttonStep time false st).map Machine.mode = some MODE_OFF)
    ∧ ((st.mode = MODE_LOW ∨ st.mode = MODE_MED) →
      50 < usub time st.btnTime →
      buttonTimeoutToOffMilliseconds < usub time st.lastModeTime →
      (buttonStep time false st).map Machine.mode = some MODE_OFF) := by
  refine ⟨?_, ?_, ?_, ?_, ?_⟩
  · intro hm h20 hwin
    rcases hlom with hl | hl | hl <;>
      simp [buttonStep, modeSwitch, applyTransition, setLight, setLightF,
        setLightOff, setLightLow, setLightMed, setLightHigh, setLightBlinking,
        delay, resetAccelTimeout, MODE_OFF, MODE_LOW, MODE_MED, MODE_HIGH,
        MODE_BLINKING, MODE_BLINKING_PREVIEW, buttonTimeoutToOffMilliseconds,
        hm, hbd, hl, h20, hwin]
  · intro hm h50 hdw
    have hdw2 : ¬(2000 < usub time st.lastModeTime) := by
      simpa [buttonTimeoutToOffMilliseconds] using Nat.not_lt.mpr hdw
    simp [buttonStep, modeSwitch, applyTransition, setLight, setLightF,
      setLightOff, setLightLow, setLightMed, setLightHigh, setLightBlinking,
      delay, resetAccelTimeout, MODE_OFF, MODE_LOW, MODE_MED, MODE_HIGH,
      MODE_BLINKING, MODE_BLINKING_PREVIEW, buttonTimeoutToOffMilliseconds,
      hm, hbd, h50, hdw2]
  · intro hm h50 hdw
    have hdw2 : ¬(2000 < usub time st.lastModeTime) := by
      simpa [buttonTimeoutToOffMilliseconds] using Nat.not_lt.mpr hdw
    simp [buttonStep, modeSwitch, applyTransition, setLight, setLightF,
      setLightOff, setLightLow, setLightMed, setLightHigh, setLightBlinking,
      delay, resetAccelTimeout, MODE_OFF, MODE_LOW, MODE_MED, MODE_HIGH,
      MODE_BLINKING, MODE_BLINKING_PREVIEW, buttonTimeoutToOffMilliseconds,
      hm, hbd, h50, hdw2]
  · intro hm h50
    simp [buttonStep, modeSwitch, applyTransition, setLight, setLightF,
      setLightOff, setLightLow, setLightMed, setLightHigh, setLightBlinking,
      delay, resetAccelTimeout, MODE_OFF, MODE_LOW, MODE_MED, MODE_HIGH,
      MODE_BLINKING, MODE_BLINKING_PREVIEW, buttonTimeoutToOffMilliseconds,
      hm, hbd, h50]
  · intro hm h50 hdw
    have hdw2 : 2000 < usub time st.lastModeTime := by
      simpa [buttonTimeoutToOffMilliseconds] using hdw
    rcases hm with hm | hm <;>
      simp [buttonStep, modeSwitch, applyTransition, setLight, setLightF,
        setLightOff, setLightLow, setLightMed, setLightHigh, setLightBlinking,
        delay, resetAccelTimeout, MODE_OFF, MODE_LOW, MODE_MED, MODE_HIGH,
        MODE_BLINKING, MODE_BLINKING_PREVIEW, buttonTimeoutToOffMilliseconds,
        hm, hbd, h50, hdw2]

/-- C1 witness: the five cycle transitions exercised at concrete states. -/
theorem claim1_witness :
    (buttonStep 1100 false stW).map Machine.mode = some stW.lastOnMode
    ∧ (buttonStep 1000 false
        { stW with mode := MODE_LOW, btnTime := 900,
                   lastModeTime := 400 }).map Machine.mode = some MODE_MED
    ∧ (buttonStep 1000 false
        { stW with mode := MODE_MED, btnTime := 900,
                   lastModeTime := 400 }).map Machine.mode = some MODE_HIGH
    ∧ (buttonStep 1000 false
        { stW with mode := MODE_HIGH, btnTime := 900,
                   lastModeTime := 400 }).map Machine.mode = some MODE_OFF
    ∧ (buttonStep 3000 false
        { stW with mode := MODE_LOW, btnTime := 2900,
                   lastModeTime := 400 }).map Machine.mode = some MODE_OFF :=
  ⟨(claim1_brightness_cycle stW 1100 (by decide) (by decide)).1
      (by decide) (by decide) (by decide),
   (claim1_brightness_cycle _ 1000 (by decide) (by decide)).2.1
      (by decide) (by decide) (by decide),
   (claim1_brightness_cycle _ 1000 (by decide) (by decide)).2.2.1
      (by decide) (by decide) (by decide),
   (claim1_brightness_cycle _ 1000 (by decide) (by decide)).2.2.2.1
      (by decide) (by decide),
   (claim1_brightness_cycle _ 3000 (by decide) (by decide)).2.2.2.2
      (by decide) (by decide) (by decide)⟩

/-- C2: from `Off`, a release held beyond the debounce floor that arrives
within the 1000ms double-tap window of the last accepted mode transition
forces `MODE_LOW`, for every value of `lastOnMode`. -/
theorem claim2_double_press (st : Machine) (time : Nat)
    (hm : st.mode = MODE_OFF) (hbd : st.btnDown = true)
    (h20 : 20 < usub time st.btnTime) (hlm : 0 < st.lastModeTime)
    (hwin : usub time st.lastModeTime ≤ 1000) :
    (buttonStep time false st).map Machine.mode = some MODE_LOW := by
  simp [buttonStep, modeSwitch, applyTransition, setLight, setLightF,
    setLightOff, setLightLow, setLightMed, setLightHigh, setLightBlinking,
    delay, resetAccelTimeout, MODE_OFF, MODE_LOW, MODE_MED, MODE_HIGH,
    MODE_BLINKING, MODE_BLINKING_PREVIEW, hm, hbd, h20,
    Nat.not_lt.mpr hwin, Nat.pos_iff_ne_zero.mp hlm]

/-- C2 witness: a quick second press at 900ms after a transition at 500ms,
with `lastOnMode = MODE_HIGH`, still lands in `MODE_LOW`. -/
theorem claim2_witness :
    (buttonStep 900 false
      { stW with btnTime := 800, lastModeTime := 500,
                 lastOnMode := MODE_HIGH }).map Machine.mode =
      some MODE_LOW :=
  claim2_double_press _ 900 (by decide) (by decide) (by decide) (by decide)
    (by decide)

/-- C3 counterexample: in hexbright_jrt.ino, holding the button from `Off`
for more than 500ms does NOT leave the machine in `MODE_BLINKING_PREVIEW`:
the transition calls `setLightBlinking()` and `setLight` collapses the
preview value, so the stored mode is already `MODE_BLINKING`. -/
theorem claim3_counterexample :
    (buttonStep 600 true stW).map Machine.mode = some MODE_BLINKING
    ∧ ¬((buttonStep 600 true stW).map Machine.mode =
        some MODE_BLINKING_PREVIEW) := by
  constructor <;> decide

/-- C3 (amended): holding the button from `Off` for more than 500ms puts the
machine directly in `Blinking` (the requested `BlinkingPreview` is collapsed
when the transition is applied); a qualifying release (held > 50ms) with
dwell since entry at most the 2000ms exit-timeout leaves the mode
`Blinking`, and one with dwell beyond the exit-timeout yields `Off`. -/
theorem claim3_blink_entry_exit (st : Machine) (time : Nat)
    (hlom : st.lastOnMode = MODE_LOW ∨ st.lastOnMode = MODE_MED ∨
      st.lastOnMode = MODE_HIGH)
    (hbd : st.btnDown = true) :
    (st.mode = MODE_OFF → 500 < usub time st.btnTime →
      (buttonStep time true st).map Machine.mode = some MODE_BLINKING)
    ∧ (st.mode = MODE_BLINKING → 50 < usub time st.btnTime →
      usub time st.lastModeTime ≤ 2000 →
      (buttonStep time false st).map Machine.mode = some MODE_BLINKING)
    ∧ (st.mode = MODE_BLINKING → 50 < usub time st.btnTime →
      2000 < usub time st.lastModeTime →
      (buttonStep time false st).map Machine.mode = some MODE_OFF) := by
  refine ⟨?_, ?_, ?_⟩
  · intro hm h500
    rcases hlom with hl | hl | hl <;>
      simp [buttonStep, modeSwitch, applyTransition, setLight, setLightF,
        setLightOff, setLightLow, setLightMed, setLightHigh, setLightBlinking,
        delay, resetAccelTimeout, MODE_OFF, MODE_LOW, MODE_MED, MODE_HIGH,
        MODE_BLINKING, MODE_BLINKING_PREVIEW, hm, hbd, hl, h500]
  · intro hm h50 hdw
    simp [buttonStep, modeSwitch, applyTransition, setLight, setLightF,
      setLightOff, setLightLow, setLightMed, setLightHigh, setLightBlinking,
      delay, resetAccelTimeout, MODE_OFF, MODE_LOW, MODE_MED, MODE_HIGH,
      MODE_BLINKING, MODE_BLINKING_PREVIEW, hm, hbd, h50,
      Nat.not_lt.mpr hdw]
  · intro hm h50 hdw
    simp [buttonStep, modeSwitch, applyTransition, setLight, setLightF,
      setLightOff, setLightLow, setLightMed, setLightHigh, setLightBlinking,
      delay, resetAccelTimeout, MODE_OFF, MODE_LOW, MODE_MED, MODE_HIGH,
      MODE_BLINKING, MODE_BLINKING_PREVIEW, hm, hbd, h50, hdw]

/-- C3 witness: blink entry after a 600ms hold, a quick release staying in
`Blinking`, and a late release leaving to `Off`. -/
theorem claim3_witness :
    (buttonStep 600 true stW).map Machine.mode = some MODE_BLINKING
    ∧ (buttonStep 1000 false
        { stW with mode := MODE_BLINKING, btnTime := 900,
                   lastModeTime := 400 }).map Machine.mode =
        some MODE_BLINKING
    ∧ (buttonStep 3000 false
        { stW with mode := MODE_BLINKING, btnTime := 2900,
                   lastModeTime := 400 }).map Machine.mode = some MODE_OFF :=
  ⟨(claim3_blink_entry_exit stW 600 (by decide) (by decide)).1
      (by decide) (by decide),
   (claim3_blink_entry_exit _ 1000 (by decide) (by decide)).2.1
      (by decide) (by decide) (by decide),
   (claim3_blink_entry_exit _ 3000 (by decide) (by decide)).2.2
      (by decide) (by decide) (by decide)⟩

/-- C4: motion auto-shutoff. When the once-per-second pass runs (gate open)
and, at the final check, the entry time has passed the motion deadline while
the mode is not `Off`, the mode is forced to `Off`; the deadline is pushed
to `now + noAccelShutoffMilliseconds` by every classified tap or shake and
by every `setLight` call (hence every mode transition); and when the entry
time has not passed the (possibly tap-refreshed) deadline the pass performs
no shutoff. -/
theorem claim4_motion_shutoff (st : Machine) (temp tilt : Nat) (ia : Bool) :
    (∀ s2 : Machine, 1000 ≤ usub st.clock st.oneSecondLoopTime →
      oneSecondBody temp ia tilt st = some s2 →
      s2.noAccelShutoffTime < st.clock → s2.mode ≠ MODE_OFF →
      (oneSecondLoop temp ia tilt st).map Machine.mode = some MODE_OFF)
    ∧ (ia = true → (tilt &&& 0x20 ≠ 0 ∨ tilt &&& 0x80 ≠ 0) →
      (checkAccel ia tilt st).noAccelShutoffTime =
        st.clock + noAccelShutoffMilliseconds ∧
      (checkAccel ia tilt st).lastAccelTime = st.clock)
    ∧ (∀ (m : Nat) (st' : Machine), setLight m st = some st' →
      st'.noAccelShutoffTime = st.clock + noAccelShutoffMilliseconds)
    ∧ (∀ s2 : Machine, 1000 ≤ usub st.clock st.oneSecondLoopTime →
      oneSecondBody temp ia tilt st = some s2 →
      st.clock ≤ s2.noAccelShutoffTime →
      oneSecondLoop temp ia tilt st = some s2) := by
  refine ⟨?_, ?_, ?_, ?_⟩
  · intro s2 hgate hbody hdl hmode
    have hm0 : ¬(s2.mode = 0) := by simpa [ MODE_OFF] using hmode
    unfold oneSecondLoop
    dsimp only
    rw [if_neg (Nat.not_lt.mpr hgate), hbody]
    simp [hdl, hm0, setLightOff, setLight, setLightF, resetAccelTimeout,
      MODE_OFF, MODE_LOW, MODE_MED, MODE_HIGH, MODE_BLINKING,
      MODE_BLINKING_PREVIEW]
  · intro hia htap
    subst hia
    unfold checkAccel
    dsimp only
    split_ifs <;> simp_all [resetAccelTimeout]
  · intro m st' h
    exact (setLight_spec _ _ _ h).2.2.2.2.2.1
  · intro s2 hgate hbody hle
    unfold oneSecondLoop
    dsimp only
    rw [if_neg (Nat.not_lt.mpr hgate), hbody]
    simp only [Option.some_bind]
    rw [if_neg]
    intro hc
    exact Nat.not_lt.mpr hle hc.1

/-- C4 witness: at `stA` (deadline 30528 long passed at clock 40000) the
pass forces `Off`; a tap byte resets the deadline; a `setLight` call resets
the deadline; and with the tap in the same pass the shutoff is
suppressed. -/
theorem claim4_witness :
    (oneSecondLoop 100 false 0 stA).map Machine.mode = some MODE_OFF
    ∧ (checkAccel true 0x20 stA).noAccelShutoffTime =
        stA.clock + noAccelShutoffMilliseconds
    ∧ ((setLight MODE_MED stA).map Machine.noAccelShutoffTime =
        some (stA.clock + noAccelShutoffMilliseconds))
    ∧ oneSecondLoop 100 true 0x20 stA =
        some { stA with oneSecondLoopTime := 40000, lastAccelTime := 40000,
                        noAccelShutoffTime := 40000 +
                          noAccelShutoffMilliseconds } := by
  refine ⟨?_, ?_, ?_, ?_⟩
  · exact (claim4_motion_shutoff stA 100 0 false).1
      { stA with oneSecondLoopTime := 40000 } (by decide) (by decide)
      (by decide) (by decide)
  · exact ((claim4_motion_shutoff stA 100 0x20 true).2.1 rfl
      (Or.inl (by decide))).1
  · cases hx : setLight MODE_MED stA with
    | none => exact absurd hx (by decide)
    | some st' =>
      have h := (claim4_motion_shutoff stA 100 0x20 true).2.2.1 MODE_MED
        st' hx
      simp [h]
  · exact (claim4_motion_shutoff stA 100 0x20 true).2.2.2
      { stA with oneSecondLoopTime := 40000, lastAccelTime := 40000,
                 noAccelShutoffTime := 40000 + noAccelShutoffMilliseconds }
      (by decide) (by decide) (by decide)

/-- C5: the deployment constant is NOT 30 minutes on the target. The C
initializer `30 * 60 * 1000` overflows the AVR's 16-bit `int`, so every
reset of the motion deadline pushes it by 30528 ms (about 30.5 seconds),
not by the 1,800,000 ms the claim (and the firmware's own header comment)
state. -/
theorem claim5_inactivity_window :
    noAccelShutoffMilliseconds = 30528
    ∧ noAccelShutoffMilliseconds ≠ 30 * 60 * 1000
    ∧ ∀ st : Machine, (resetAccelTimeout st).noAccelShutoffTime =
        st.clock + 30528 := by
  refine ⟨by decide, by decide, fun st => ?_⟩
  simp [resetAccelTimeout, noAccelShutoffMilliseconds]

/-- C6: `readAccel` does not retry at all. The `continue` after the
failed-read test targets the inner `for` loop and the `while (1)` body ends
in an unconditional `break`, so a single transaction whose first byte
carries the bit-6 failed-read flag (0x40) is consumed and the flagged byte
is returned as the x-axis value; a byte carrying both bit 6 and the bit-5
sign flag (0x60) is returned without sign-extension. -/
theorem claim6_readaccel_no_retry :
    readAccel [0x40, 0x01, 0x02] 0 0 0 = (0x40, 0x01, 0x02)
    ∧ 0x40 &&& 0x40 ≠ 0
    ∧ readAccel [0x60, 0x01, 0x02] 0 0 0 = (0x60, 0x01, 0x02)
    ∧ 0x60 &&& 0x20 ≠ 0
    ∧ (0x60 : Nat) ||| 0xC0 ≠ 0x60 := by
  decide

/-- C7: `lastOnMode` is one of `{Low, Medium, High}` from boot (for every
stored byte, in-range or not) and is preserved by every operation:
`setLight`, the button-driven transition step, the once-per-second pass,
the overtemperature pass, the accelerometer check, `powerOff`, and a full
`loop` tick. -/
theorem claim7_lastOnMode_invariant :
    (∀ e c, LastOnInv (setup e c))
    ∧ (∀ m st st', LastOnInv st → setLight m st = some st' → LastOnInv st')
    ∧ (∀ t b st st', LastOnInv st → buttonStep t b st = some st' →
        LastOnInv st')
    ∧ (∀ temp ia tilt st st', LastOnInv st →
        oneSecondLoop temp ia tilt st = some st' → LastOnInv st')
    ∧ (∀ temp st st', LastOnInv st → checkTemperature temp st = some st' →
        LastOnInv st')
    ∧ (∀ ia tilt st, LastOnInv st → LastOnInv (checkAccel ia tilt st))
    ∧ (∀ st, LastOnInv st → LastOnInv (powerOff st))
    ∧ (∀ cr temp ia tilt b st st', LastOnInv st →
        loopStep cr temp ia tilt b st = some st' → LastOnInv st') := by
  refine ⟨?_, fun m st st' => setLight_inv m st st',
    fun t b st st' => buttonStep_inv t b st st',
    fun temp ia tilt st st' => oneSecondLoop_inv temp ia tilt st st',
    fun temp st st' => checkTemperature_inv temp st st', ?_, ?_,
    fun cr temp ia tilt b st st' => loopStep_inv cr temp ia tilt b st st'⟩
  · intro e c
    unfold LastOnInv setup resetAccelTimeout
    dsimp only
    split_ifs with hc
    · simp [ MODE_MED, MODE_LOW, MODE_HIGH]
    · simp only [ MODE_LOW, MODE_MED, MODE_HIGH, MODE_OFF, not_or, not_lt] at hc ⊢
      omega
  · intro ia tilt st hi
    obtain ⟨d, l, hcs⟩ := checkAccel_state ia tilt st
    rw [hcs]
    exact hi
  · intro st hi
    simpa [powerOff, LastOnInv] using hi

/-- C7 witness: the invariant at boot with the out-of-range stored byte 9,
and preservation through `powerOff`, `checkAccel`, and a button step. -/
theorem claim7_witness :
    LastOnInv (setup 9 0)
    ∧ LastOnInv (powerOff stW)
    ∧ LastOnInv (checkAccel true 0x20 stW)
    ∧ (buttonStep 1100 false stW).elim False LastOnInv := by
  refine ⟨claim7_lastOnMode_invariant.1 9 0,
    claim7_lastOnMode_invariant.2.2.2.2.2.2.1 stW (by decide),
    claim7_lastOnMode_invariant.2.2.2.2.2.1 true 0x20 stW (by decide), ?_⟩
  cases hx : buttonStep 1100 false stW with
  | none => exact absurd hx (by decide)
  | some st' =>
    exact claim7_lastOnMode_invariant.2.2.1 1100 false stW st' (by decide) hx

/-- C8: persistence round-trip. Powering off with `lastOnMode = High` and
rebooting from the stored byte restores `High`; a stored byte of 9 boots to
the hard-coded fallback `MODE_MED`; `powerOff` leaves the cell equal to
`lastOnMode` and performs a write exactly when the stored byte differs; and
no other modelled operation touches the cell or performs a write. -/
theorem claim8_persistence :
    (∀ st c, st.lastOnMode = MODE_HIGH →
      (setup (powerOff st).eeprom c).lastOnMode = MODE_HIGH)
    ∧ (∀ c, (setup 9 c).lastOnMode = MODE_MED)
    ∧ (∀ st, (powerOff st).eeprom = st.lastOnMode ∧
        (powerOff st).eepromWrites =
          (if st.eeprom = st.lastOnMode then st.eepromWrites
           else st.eepromWrites + 1))
    ∧ (∀ m st st', setLight m st = some st' →
        st'.eeprom = st.eeprom ∧ st'.eepromWrites = st.eepromWrites)
    ∧ (∀ t b st st', buttonStep t b st = some st' →
        st'.eeprom = st.eeprom ∧ st'.eepromWrites = st.eepromWrites)
    ∧ (∀ temp ia tilt st st', oneSecondLoop temp ia tilt st = some st' →
        st'.eeprom = st.eeprom ∧ st'.eepromWrites = st.eepromWrites)
    ∧ (∀ temp st st', checkTemperature temp st = some st' →
        st'.eeprom = st.eeprom ∧ st'.eepromWrites = st.eepromWrites)
    ∧ (∀ ia tilt st, (checkAccel ia tilt st).eeprom = st.eeprom ∧
        (checkAccel ia tilt st).eepromWrites = st.eepromWrites) := by
  refine ⟨?_, ?_, ?_,
    fun m st st' h => ⟨(setLight_spec _ _ _ h).2.1,
      (setLight_spec _ _ _ h).2.2.1⟩,
    fun t b st st' h => buttonStep_frame _ _ _ _ h,
    fun temp ia tilt st st' h => oneSecondLoop_frame _ _ _ _ _ h,
    fun temp st st' h => checkTemperature_frame _ _ _ h, ?_⟩
  · intro st c h
    have hp : (powerOff st).eeprom = st.lastOnMode := by
      by_cases he : st.eeprom = st.lastOnMode <;> simp [powerOff, he]
    rw [hp, h]
    simp [setup, resetAccelTimeout, MODE_LOW, MODE_MED, MODE_HIGH, MODE_OFF]
  · intro c
    simp [setup, resetAccelTimeout, MODE_LOW, MODE_MED, MODE_HIGH, MODE_OFF]
  · intro st
    by_cases he : st.eeprom = st.lastOnMode <;> simp [powerOff, he]
  · intro ia tilt st
    obtain ⟨d, l, hcs⟩ := checkAccel_state ia tilt st
    rw [hcs]
    exact ⟨rfl, rfl⟩

/-- C8 witness: the round trip from `lastOnMode = High`, the out-of-range
boot, and the conditional write at concrete states. -/
theorem claim8_witness :
    (setup (powerOff { stW with lastOnMode := MODE_HIGH }).eeprom 0).lastOnMode
      = MODE_HIGH
    ∧ (setup 9 0).lastOnMode = MODE_MED
    ∧ (powerOff stW).eeprom = stW.lastOnMode
    ∧ (powerOff stW).eepromWrites =
        (if stW.eeprom = stW.lastOnMode then stW.eepromWrites
         else stW.eepromWrites + 1)
    ∧ (checkAccel true 0x20 stW).eeprom = stW.eeprom :=
  ⟨claim8_persistence.1 { stW with lastOnMode := MODE_HIGH } 0 (by decide),
   claim8_persistence.2.1 0,
   (claim8_persistence.2.2.1 stW).1,
   (claim8_persistence.2.2.1 stW).2,
   (claim8_persistence.2.2.2.2.2.2.2 true 0x20 stW).1⟩

/-- C9: overtemperature response. A sample above `OVERTEMP` while the mode
is not `Off` produces exactly one protective sequence: thirteen LED-driver
writes alternating low/high starting and ending low, 100ms apart (six full
low/high alternations followed by the forced low output), blocking for
1200ms; afterwards the mode is `MODE_LOW`, matching the physical
low-brightness output (`drvMode` low, `drvEn` at the 64/255 low duty). -/
theorem claim9_overtemp_response (st : Machine) (temp : Nat)
    (ht : OVERTEMP < temp) (hm : st.mode ≠ MODE_OFF) :
    (checkTemperature temp st).map
      (fun s => (s.mode, s.drvMode, s.drvEn, s.pwrOn, s.clock, s.lightTrace))
    = some (MODE_LOW, false, 64, true, st.clock + 1200,
        st.lightTrace ++
          [(st.clock, MODE_LOW), (st.clock + 100, MODE_HIGH),
           (st.clock + 200, MODE_LOW), (st.clock + 300, MODE_HIGH),
           (st.clock + 400, MODE_LOW), (st.clock + 500, MODE_HIGH),
           (st.clock + 600, MODE_LOW), (st.clock + 700, MODE_HIGH),
           (st.clock + 800, MODE_LOW), (st.clock + 900, MODE_HIGH),
           (st.clock + 1000, MODE_LOW), (st.clock + 1100, MODE_HIGH),
           (st.clock + 1200, MODE_LOW)]) := by
  rw [checkTemperature_run temp st ht hm]
  rfl

/-- C9 witness: the protective sequence evaluated from `High` at clock
600. -/
theorem claim9_witness :
    OVERTEMP < 400
    ∧ ({ stW with mode := MODE_HIGH } : Machine).mode ≠ MODE_OFF
    ∧ (checkTemperature 400 { stW with mode := MODE_HIGH }).map
        (fun s => (s.mode, s.drvMode, s.drvEn, s.pwrOn, s.clock,
          s.lightTrace))
      = some (MODE_LOW, false, 64, true,
          ({ stW with mode := MODE_HIGH } : Machine).clock + 1200,
          ({ stW with mode := MODE_HIGH } : Machine).lightTrace ++
            [(({ stW with mode := MODE_HIGH } : Machine).clock, MODE_LOW),
             (({ stW with mode := MODE_HIGH } : Machine).clock + 100,
               MODE_HIGH),
             (({ stW with mode := MODE_HIGH } : Machine).clock + 200,
               MODE_LOW),
             (({ stW with mode := MODE_HIGH } : Machine).clock + 300,
               MODE_HIGH),
             (({ stW with mode := MODE_HIGH } : Machine).clock + 400,
               MODE_LOW),
             (({ stW with mode := MODE_HIGH } : Machine).clock + 500,
               MODE_HIGH),
             (({ stW with mode := MODE_HIGH } : Machine).clock + 600,
               MODE_LOW),
             (({ stW with mode := MODE_HIGH } : Machine).clock + 700,
               MODE_HIGH),
             (({ stW with mode := MODE_HIGH } : Machine).clock + 800,
               MODE_LOW),
             (({ stW with mode := MODE_HIGH } : Machine).clock + 900,
               MODE_HIGH),
             (({ stW with mode := MODE_HIGH } : Machine).clock + 1000,
               MODE_LOW),
             (({ stW with mode := MODE_HIGH } : Machine).clock + 1100,
               MODE_HIGH),
             (({ stW with mode := MODE_HIGH } : Machine).clock + 1200,
               MODE_LOW)]) :=
  ⟨by decide, by decide,
   claim9_overtemp_response { stW with mode := MODE_HIGH } 400 (by decide)
     (by decide)⟩

/-- C10: the protective sequence clobbers `lastOnMode`. For every
pre-sequence `lastOnMode` in `{Low, Medium, High}`, the final
`setLightLow()` leaves `lastOnMode = MODE_LOW`, and a subsequent `powerOff`
persists exactly that clobbered value to the EEPROM cell. -/
theorem claim10_overtemp_clobbers (st : Machine) (temp : Nat) (st' : Machine)
    (hlom : LastOnInv st) (ht : OVERTEMP < temp) (hm : st.mode ≠ MODE_OFF)
    (h : checkTemperature temp st = some st') :
    st'.lastOnMode = MODE_LOW ∧ (powerOff st').eeprom = MODE_LOW := by
  rw [checkTemperature_run temp st ht hm] at h
  simp only [Option.some.injEq] at h
  subst h
  constructor
  · rfl
  · by_cases he : st.eeprom = MODE_LOW <;> simp [powerOff, he, MODE_LOW]

/-- C10 witness: from `High` with `lastOnMode = Medium`, the sequence ends
with `lastOnMode = Low` and the next power-off stores `Low`. -/
theorem claim10_witness :
    (checkTemperature 400 { stW with mode := MODE_HIGH }).elim False
      (fun s => s.lastOnMode = MODE_LOW ∧ (powerOff s).eeprom = MODE_LOW) := by
  cases hx : checkTemperature 400 { stW with mode := MODE_HIGH } with
  | none => exact absurd hx (by decide)
  | some st' =>
    exact claim10_overtemp_clobbers _ 400 st' (by decide) (by decide)
      (by decide) hx

end Hexbright
